import Mathlib

/-!
Shallow embedding of the instructor dashboard page of the
case-discussion-board application (source: `src/app/page.tsx`).

The page keeps React state (case list, two creation inputs, a creating
flag, a loading flag, the adopted email identity, the email input, and a
per-row deleting marker), reads and writes the browser's persistent
key-value storage under the single key `instructor_email`, and talks to a
remote table service (`case_config` and `responses` tables).

Remote calls are modelled as an emitted trace (`RemoteCall` list) in the
order the handler issues them; the asynchronous response of a list query
is passed in as an explicit `Option (List CaseRow)` argument, mirroring
the `data` field of the service reply (which may be null).
-/

/-- The set of characters matched by the JavaScript regex class `\s`
(and removed by `String.prototype.trim`): whitespace and line
terminators per the ECMAScript definition. -/
def jsWhitespace (c : Char) : Bool :=
  c.toNat = 0x9 || c.toNat = 0xa || c.toNat = 0xb || c.toNat = 0xc ||
  c.toNat = 0xd || c.toNat = 0x20 || c.toNat = 0xa0 || c.toNat = 0x1680 ||
  (0x2000 ≤ c.toNat && c.toNat ≤ 0x200a) ||
  c.toNat = 0x2028 || c.toNat = 0x2029 || c.toNat = 0x202f ||
  c.toNat = 0x205f || c.toNat = 0x3000 || c.toNat = 0xfeff

/-- `trim` on a character list: drop leading and trailing whitespace. -/
def jsTrimList (l : List Char) : List Char :=
  ((l.dropWhile jsWhitespace).reverse.dropWhile jsWhitespace).reverse

/-- JavaScript `String.prototype.trim`. -/
def jsTrim (s : String) : String :=
  String.mk (jsTrimList s.data)

/-- JavaScript `String.prototype.toLowerCase`, restricted to the ASCII
simple case mapping (the only case the page's inputs rely on). -/
def jsToLower (s : String) : String :=
  String.mk (s.data.map Char.toLower)

/-- `replace(/\s+/g, "-")`, one character at a time: the flag records
whether the previous character was whitespace, so that each maximal run
of whitespace characters becomes a single hyphen. -/
def collapseWsAux : Bool → List Char → List Char
  | _, [] => []
  | prevWs, c :: rest =>
    if jsWhitespace c then
      if prevWs then collapseWsAux true rest
      else '-' :: collapseWsAux true rest
    else c :: collapseWsAux false rest

/-- `replace(/\s+/g, "-")`: each maximal run of whitespace characters
becomes a single hyphen. -/
def collapseWs (l : List Char) : List Char :=
  collapseWsAux false l

/-- Membership in the character class `[a-z0-9-]`. -/
def isSlugChar (c : Char) : Bool :=
  (('a' ≤ c) && (c ≤ 'z')) || (('0' ≤ c) && (c ≤ '9')) || c = '-'

/-- Slug derivation from `handleCreate`:
`newId.trim().toLowerCase().replace(/\s+/g, "-").replace(/[^a-z0-9-]/g, "")`. -/
def slugOf (s : String) : String :=
  String.mk ((collapseWs (jsToLower (jsTrim s)).data).filter isSlugChar)

/-- A row of the `case_config` table as selected by the page. -/
structure CaseRow where
  id : String
  title : String
  created_at : String
  created_by : String
deriving DecidableEq

/-- The browser's persistent key-value storage, as an association list;
`getItem` returns the first binding of a key. -/
abbrev Storage := List (String × String)

/-- `localStorage.getItem`. -/
def getItem (s : Storage) (k : String) : Option String :=
  (s.find? (fun p => p.1 == k)).map (·.2)

/-- `localStorage.removeItem`. -/
def removeItem (s : Storage) (k : String) : Storage :=
  s.filter (fun p => !(p.1 == k))

/-- `localStorage.setItem` (overwrites any previous binding). -/
def setItem (s : Storage) (k v : String) : Storage :=
  (k, v) :: removeItem s k

/-- The React state of `HomePage`, one field per `useState` hook. -/
structure PageState where
  cases : List CaseRow
  newId : String
  newTitle : String
  creating : Bool
  loading : Bool
  email : Option String
  emailInput : String
  deleting : Option String
deriving DecidableEq

/-- The initial values passed to the `useState` hooks. -/
def initialPage : PageState :=
  { cases := [], newId := "", newTitle := "", creating := false,
    loading := true, email := none, emailInput := "", deleting := none }

/-- Page state together with the persistent storage it reads and writes. -/
structure World where
  storage : Storage
  page : PageState
deriving DecidableEq

/-- A call issued to the remote table service, in the shape the page
builds it: a filtered ordered select, a single-row insert (`created_at`
is assigned by the storage layer, not sent), or a filtered delete. -/
inductive RemoteCall where
  | select (table : String) (columns : String) (eqField eqValue : String)
      (orderField : String) (ascending : Bool)
  | insert (table : String) (id : String) (title : String) (created_by : String)
  | delete (table : String) (eqField eqValue : String)
deriving DecidableEq

/-- JavaScript truthiness of the `email` state (`string | null`):
falsy when null or the empty string. -/
def emailTruthy : Option String → Bool
  | none => false
  | some s => !(s == "")

/-- `loadCases(forEmail)`: set `loading`, query `case_config` for the
rows owned by `forEmail` newest-first, then replace the list with the
reply (`data ?? []`) and clear `loading`. The reply is the explicit
`data` argument. -/
def loadCases (forEmail : String) (data : Option (List CaseRow))
    (st : PageState) : PageState × List RemoteCall :=
  let st1 := { st with loading := true }
  let call := RemoteCall.select "case_config" "id, title, created_at, created_by"
      "created_by" forEmail "created_at" false
  ({ st1 with cases := data.getD [], loading := false }, [call])

/-- `handleEmailSubmit`: normalize the email input (trim then
lower-case); if empty do nothing, else persist it under
`instructor_email` and adopt it as the identity. -/
def handleEmailSubmit (w : World) : World :=
  let trimmed := jsToLower (jsTrim w.page.emailInput)
  if trimmed = "" then w
  else { storage := setItem w.storage "instructor_email" trimmed,
         page := { w.page with email := some trimmed } }

/-- `handleSwitch`: remove the stored identity and reset email, email
input, case list and loading flag. -/
def handleSwitch (w : World) : World :=
  { storage := removeItem w.storage "instructor_email",
    page := { w.page with
               email := none, emailInput := "", cases := [], loading := false } }

/-- `handleCreate`: guard on a truthy identity and a non-empty derived
slug, then insert one row (`id` = slug, `title` = trimmed title or
`"New Case"`, `created_by` = identity), clear the inputs and reload the
list. `reload` is the reply to the reload query. -/
def handleCreate (w : World) (reload : Option (List CaseRow)) :
    World × List RemoteCall :=
  if !(emailTruthy w.page.email) then (w, [])
  else
    let email := w.page.email.getD ""
    let slug := slugOf w.page.newId
    if slug = "" then (w, [])
    else
      let t := jsTrim w.page.newTitle
      let title := if t = "" then "New Case" else t
      let st1 := { w.page with creating := true }
      let insCall := RemoteCall.insert "case_config" slug title email
      let st2 := { st1 with newId := "", newTitle := "", creating := false }
      let (st3, loadCalls) := loadCases email reload st2
      ({ w with page := st3 }, insCall :: loadCalls)

/-- The message passed to `window.confirm` by `handleDelete`. -/
def deleteConfirmMessage (caseTitle : String) : String :=
  "Delete case \"" ++ caseTitle ++ "\"? All responses will be permanently deleted."

/-- `handleDelete`: guard on a truthy identity and on the user
confirming the prompt (modelled by the `confirm` callback applied to the
prompt message), then delete the dependent `responses` rows, the
`case_config` row, clear the deleting marker and reload the list. -/
def handleDelete (w : World) (caseId caseTitle : String)
    (confirm : String → Bool) (reload : Option (List CaseRow)) :
    World × List RemoteCall :=
  if !(emailTruthy w.page.email) then (w, [])
  else if !(confirm (deleteConfirmMessage caseTitle)) then (w, [])
  else
    let email := w.page.email.getD ""
    let st1 := { w.page with deleting := some caseId }
    let c1 := RemoteCall.delete "responses" "case_id" caseId
    let c2 := RemoteCall.delete "case_config" "id" caseId
    let st2 := { st1 with deleting := none }
    let (st3, loadCalls) := loadCases email reload st2
    ({ w with page := st3 }, c1 :: c2 :: loadCalls)

/-- The mount effect: read `instructor_email` from storage; a truthy
stored value is adopted verbatim as the identity, otherwise `loading`
clears. -/
def onMount (w : World) : World :=
  match getItem w.storage "instructor_email" with
  | some stored =>
      if stored = "" then { w with page := { w.page with loading := false } }
      else { w with page := { w.page with email := some stored } }
  | none => { w with page := { w.page with loading := false } }

/-! ## Helper lemmas about the storage model -/

theorem getItem_removeItem (s : Storage) (k : String) :
    getItem (removeItem s k) k = none := by
  induction s with
  | nil => rfl
  | cons p t ih =>
    by_cases h : p.1 == k
    · simp only [removeItem, List.filter_cons, h] at ih ⊢
      simp [ih]
    · simp only [removeItem, List.filter_cons, h] at ih ⊢
      simp only [getItem, List.find?, h] at ih ⊢
      simp [ih]

theorem getItem_setItem (s : Storage) (k v : String) :
    getItem (setItem s k v) k = some v := by
  simp [getItem, setItem, List.find?]

theorem jsToLower_eq_empty_iff (s : String) : jsToLower s = "" ↔ s = "" := by
  cases s with
  | mk data =>
    cases data <;> simp [jsToLower, String.ext_iff]

/-! ## Claims -/

/-- C1: for every raw identifier input string, the slug derived by the
creation flow (trim, lower-case, collapse whitespace runs to hyphens,
strip everything outside `[a-z0-9-]`) contains only lowercase letters,
digits, and hyphens. -/
theorem slugOf_charset (s : String) (c : Char) (h : c ∈ (slugOf s).data) :
    isSlugChar c = true := by
  have hmem : c ∈ (collapseWs (jsToLower (jsTrim s)).data).filter isSlugChar := h
  exact (List.mem_filter.mp hmem).2

theorem slugOf_charset_witness : isSlugChar 'k' = true :=
  slugOf_charset "  SKIMS Case!! " 'k' (by decide)

/-- C2: whenever the derived slug of the identifier input is empty, the
create operation is a no-op: the state is unchanged and no remote call
(in particular no insert) is issued. -/
theorem handleCreate_noop_of_empty_slug (w : World)
    (reload : Option (List CaseRow)) (h : slugOf w.page.newId = "") :
    handleCreate w reload = (w, []) := by
  unfold handleCreate
  split
  · rfl
  · simp [h]

theorem handleCreate_noop_of_empty_slug_witness :
    handleCreate
      { storage := [("instructor_email", "a@b.com")],
        page := { initialPage with email := some "a@b.com", newId := "!!!" } }
      none =
      ({ storage := [("instructor_email", "a@b.com")],
         page := { initialPage with email := some "a@b.com", newId := "!!!" } },
       []) :=
  handleCreate_noop_of_empty_slug _ none (by decide)

/-- C3: a confirmed deletion issues the delete of the dependent
`responses` rows (filtered by `case_id`) strictly before the delete of
the parent `case_config` row: the emitted trace is exactly dependent
delete, then parent delete, then the reload query. -/
theorem handleDelete_dependents_before_parent (w : World)
    (caseId caseTitle : String) (confirm : String → Bool)
    (reload : Option (List CaseRow)) (e : String)
    (he : w.page.email = some e) (hne : e ≠ "")
    (hc : confirm (deleteConfirmMessage caseTitle) = true) :
    (handleDelete w caseId caseTitle confirm reload).2 =
      [RemoteCall.delete "responses" "case_id" caseId,
       RemoteCall.delete "case_config" "id" caseId,
       RemoteCall.select "case_config" "id, title, created_at, created_by"
         "created_by" e "created_at" false] := by
  simp [handleDelete, he, emailTruthy, hne, hc, loadCases]

theorem handleDelete_dependents_before_parent_witness :
    (handleDelete
      { storage := [("instructor_email", "a@b.com")],
        page := { initialPage with email := some "a@b.com" } }
      "skims" "SKIMS" (fun _ => true) none).2 =
      [RemoteCall.delete "responses" "case_id" "skims",
       RemoteCall.delete "case_config" "id" "skims",
       RemoteCall.select "case_config" "id, title, created_at, created_by"
         "created_by" "a@b.com" "created_at" false] :=
  handleDelete_dependents_before_parent _ "skims" "SKIMS" (fun _ => true)
    none "a@b.com" rfl (by decide) rfl

/-- C4: if the user declines the deletion confirmation prompt, the
delete operation issues zero remote calls and leaves the whole world
(case list, deleting marker, loading flag, storage) unchanged. -/
theorem handleDelete_declined_noop (w : World) (caseId caseTitle : String)
    (confirm : String → Bool) (reload : Option (List CaseRow))
    (h : confirm (deleteConfirmMessage caseTitle) = false) :
    handleDelete w caseId caseTitle confirm reload = (w, []) := by
  unfold handleDelete
  split
  · rfl
  · simp [h]

theorem handleDelete_declined_noop_witness :
    handleDelete
      { storage := [("instructor_email", "a@b.com")],
        page := { initialPage with email := some "a@b.com" } }
      "skims" "SKIMS" (fun _ => false) none =
      ({ storage := [("instructor_email", "a@b.com")],
         page := { initialPage with email := some "a@b.com" } }, []) :=
  handleDelete_declined_noop _ "skims" "SKIMS" (fun _ => false) none rfl

/-- C5, counterexample: the switch action does not reset the
case-creation input field `newId` back to its pre-identity initial value
(the empty string); starting from a state whose `newId` holds a draft,
the draft survives the switch. -/
theorem handleSwitch_newId_counterexample :
    (handleSwitch
      { storage := [("instructor_email", "a@b.com")],
        page := { initialPage with
                   email := some "a@b.com", newId := "draft-id",
                   newTitle := "Draft" } }).page.newId ≠
      initialPage.newId := by decide

/-- C5, amended: the switch action removes the stored identity key (a
subsequent read of `instructor_email` yields nothing), clears the
identity, the identity input field, the case list and the loading flag;
the case-creation input fields `newId` and `newTitle` are left
unchanged, not reset. -/
theorem handleSwitch_spec (w : World) :
    getItem (handleSwitch w).storage "instructor_email" = none ∧
    (handleSwitch w).page.email = none ∧
    (handleSwitch w).page.emailInput = "" ∧
    (handleSwitch w).page.cases = [] ∧
    (handleSwitch w).page.loading = false ∧
    (handleSwitch w).page.newId = w.page.newId ∧
    (handleSwitch w).page.newTitle = w.page.newTitle :=
  ⟨getItem_removeItem w.storage "instructor_email", rfl, rfl, rfl, rfl, rfl, rfl⟩

/-- C6: if the trim of the identity-capture input is empty the submit
changes nothing (nothing persisted, state unchanged); otherwise the
trimmed, lower-cased input is written to storage under
`instructor_email` and adopted as the current identity. -/
theorem handleEmailSubmit_spec (w : World) :
    (jsTrim w.page.emailInput = "" → handleEmailSubmit w = w) ∧
    (jsTrim w.page.emailInput ≠ "" →
      getItem (handleEmailSubmit w).storage "instructor_email" =
        some (jsToLower (jsTrim w.page.emailInput)) ∧
      (handleEmailSubmit w).page.email =
        some (jsToLower (jsTrim w.page.emailInput))) := by
  constructor
  · intro h
    simp [handleEmailSubmit, h, jsToLower_eq_empty_iff]
  · intro h
    have hlow : jsToLower (jsTrim w.page.emailInput) ≠ "" :=
      fun hc => h ((jsToLower_eq_empty_iff _).mp hc)
    simp only [handleEmailSubmit, hlow, if_neg hlow]
    exact ⟨getItem_setItem _ _ _, rfl⟩

theorem handleEmailSubmit_spec_witness :
    getItem
      (handleEmailSubmit
        { storage := [],
          page := { initialPage with emailInput := "  A@B.Com " } }).storage
      "instructor_email" = some "a@b.com" ∧
    (handleEmailSubmit
      { storage := [],
        page := { initialPage with emailInput := "  A@B.Com " } }).page.email =
      some "a@b.com" :=
  (handleEmailSubmit_spec
    { storage := [],
      page := { initialPage with emailInput := "  A@B.Com " } }).2 (by decide)

/-- C7: with a known identity and a non-empty derived slug, the create
operation emits exactly one insert — id the derived slug, title the
trimmed title input or `"New Case"` when blank, created_by the current
identity — followed only by the reload query. -/
theorem handleCreate_inserts_row (w : World) (reload : Option (List CaseRow))
    (e : String) (he : w.page.email = some e) (hne : e ≠ "")
    (hs : slugOf w.page.newId ≠ "") :
    (handleCreate w reload).2 =
      [RemoteCall.insert "case_config" (slugOf w.page.newId)
         (if jsTrim w.page.newTitle = "" then "New Case"
          else jsTrim w.page.newTitle) e,
       RemoteCall.select "case_config" "id, title, created_at, created_by"
         "created_by" e "created_at" false] := by
  simp [handleCreate, he, emailTruthy, hne, hs, loadCases]

theorem handleCreate_inserts_row_witness :
    (handleCreate
      { storage := [("instructor_email", "a@b.com")],
        page := { initialPage with
                   email := some "a@b.com", newId := "  SKIMS Case!! " } }
      none).2 =
      [RemoteCall.insert "case_config" "skims-case" "New Case" "a@b.com",
       RemoteCall.select "case_config" "id, title, created_at, created_by"
         "created_by" "a@b.com" "created_at" false] := by
  have h := handleCreate_inserts_row
    { storage := [("instructor_email", "a@b.com")],
      page := { initialPage with
                 email := some "a@b.com", newId := "  SKIMS Case!! " } }
    none "a@b.com" rfl (by decide) (by decide)
  simpa using h

/-- C8: for every identity, the list-load operation emits exactly the
query selecting `id, title, created_at, created_by` from `case_config`
filtered by `created_by` equal to that identity and ordered by
`created_at` descending, and on completion replaces the in-memory list
with the reply (the empty sequence when the reply is null) and clears
the loading flag. -/
theorem loadCases_spec (forEmail : String) (data : Option (List CaseRow))
    (st : PageState) :
    (loadCases forEmail data st).2 =
      [RemoteCall.select "case_config" "id, title, created_at, created_by"
        "created_by" forEmail "created_at" false] ∧
    (loadCases forEmail data st).1.cases = data.getD [] ∧
    (loadCases forEmail data st).1.loading = false :=
  ⟨rfl, rfl, rfl⟩

/-- C9: when no identity has been adopted (`email` is null), both the
create and the delete operation issue zero remote calls and leave the
whole world — in-memory page state and persistent storage — unchanged,
for all inputs. -/
theorem no_identity_noop (w : World) (reload : Option (List CaseRow))
    (caseId caseTitle : String) (confirm : String → Bool)
    (h : w.page.email = none) :
    handleCreate w reload = (w, []) ∧
    handleDelete w caseId caseTitle confirm reload = (w, []) := by
  constructor
  · simp [handleCreate, emailTruthy, h]
  · simp [handleDelete, emailTruthy, h]

theorem no_identity_noop_witness :
    handleCreate
      { storage := [], page := { initialPage with newId := "skims" } } none =
      ({ storage := [], page := { initialPage with newId := "skims" } }, []) ∧
    handleDelete
      { storage := [], page := { initialPage with newId := "skims" } }
      "skims" "SKIMS" (fun _ => true) none =
      ({ storage := [], page := { initialPage with newId := "skims" } }, []) :=
  no_identity_noop
    { storage := [], page := { initialPage with newId := "skims" } }
    none "skims" "SKIMS" (fun _ => true) rfl

/-- C10: on initialization, any non-empty string stored under
`instructor_email` is adopted verbatim as the current identity — for
every such string, including ones that are not trimmed or lower-cased,
the adopted identity is exactly the stored string. -/
theorem onMount_adopts_verbatim (w : World) (s : String)
    (hs : getItem w.storage "instructor_email" = some s) (hne : s ≠ "") :
    (onMount w).page.email = some s := by
  simp [onMount, hs, hne]

theorem onMount_adopts_verbatim_witness :
    (onMount
      { storage := [("instructor_email", "  MiXeD@X.Y ")],
        page := initialPage }).page.email = some "  MiXeD@X.Y " :=
  onMount_adopts_verbatim
    { storage := [("instructor_email", "  MiXeD@X.Y ")], page := initialPage }
    "  MiXeD@X.Y " rfl (by decide)
